import Mathlib

/-!
# Verification of the Gen-AI-Insurance-App core (src/app1.py)

Shallow embedding of the Policy Store, the Retriever (`retrieve_policy_info`)
and the Responder (`generate_response`) of `src/app1.py`, together with the
per-turn orchestration of the UI shell.  Python strings are Lean `String`s,
the Python `in` substring test is `strIn`, `str.lower()` is `pyLower`,
`str.title()` is `pyTitle`, and the fallible list indexing in the responder's
reverse identifier lookup is modelled by `Option` (a `none` result models the
`IndexError` the Python code would raise).
-/

/-- Python's `needle in hay` substring test on lists of characters:
`true` iff `n` occurs as a contiguous sublist of the second argument. -/
def listIn (n : List Char) : List Char → Bool
  | [] => n.isEmpty
  | c :: cs => n.isPrefixOf (c :: cs) || listIn n cs

/-- Python's `needle in hay` substring test on strings. -/
def strIn (needle hay : String) : Bool :=
  listIn needle.data hay.data

/-- Python's `str.lower()`, character by character.  (Lean's own
`String.toLower` is defined by well-founded recursion over byte positions and
so does not reduce inside the kernel; this char-wise map agrees with it and
with Python's `lower` on the ASCII data of this program.) -/
def pyLower (s : String) : String :=
  ⟨s.data.map Char.toLower⟩

/-- Python's `str.title()` on a list of characters: the first character of
every alphabetic run is uppercased, the rest of the run lowercased.  The
Boolean argument records whether the previous character was alphabetic. -/
def pyTitleAux : Bool → List Char → List Char
  | _, [] => []
  | prevAlpha, c :: cs =>
    (if c.isAlpha then (if prevAlpha then c.toLower else c.toUpper) else c)
      :: pyTitleAux c.isAlpha cs

/-- Python's `str.title()`. -/
def pyTitle (s : String) : String :=
  ⟨pyTitleAux false s.data⟩

/-- Python's `s.replace('_', ' ')` (single-character pattern). -/
def replaceUnderscores (s : String) : String :=
  ⟨s.data.map (fun c => if c = '_' then ' ' else c)⟩

/-- A policy record of `MOCK_POLICY_DATA` (src/app1.py lines 9-32): the value
part of one entry of the mock store.  The `coverage` sub-mapping is an ordered
association list, matching the insertion order of the Python dict. -/
structure PolicyRecord where
  customer_name : String
  policy_type : String
  coverage : List (String × String)
  premium : String
  deductible : String
  exclusions : String
deriving DecidableEq

/-- The record stored under `"policy_1001"` (src/app1.py lines 9-20). -/
def janeRecord : PolicyRecord :=
  { customer_name := "Jane Doe"
    policy_type := "Auto Insurance"
    coverage := [("collision", "Up to $50,000"),
                 ("comprehensive", "Up to $25,000"),
                 ("roadside_assistance", "Included")]
    premium := "$120/month"
    deductible := "$500"
    exclusions := "Off-road driving and commercial use." }

/-- The record stored under `"policy_1002"` (src/app1.py lines 21-32). -/
def johnRecord : PolicyRecord :=
  { customer_name := "John Smith"
    policy_type := "Home Insurance"
    coverage := [("fire", "Full replacement value"),
                 ("theft", "Up to $10,000"),
                 ("natural_disaster", "Not included (separate policy)")]
    premium := "$85/month"
    deductible := "$1,000"
    exclusions := "Damage from floods and earthquakes." }

/-- The Policy Store `MOCK_POLICY_DATA` (src/app1.py lines 8-33): an ordered
mapping from policy identifier to record, modelled as an association list in
the Python dict's insertion order. -/
def MOCK_POLICY_DATA : List (String × PolicyRecord) :=
  [("policy_1001", janeRecord), ("policy_1002", johnRecord)]

/-- The Retriever loop of `retrieve_policy_info` (src/app1.py lines 35-48),
with the global store made an explicit parameter: iterate the store in order
and keep every record whose identifier occurs in the query, or whose
lowercased customer name occurs in the lowercased query. -/
def retrieve_policy_info_on (store : List (String × PolicyRecord))
    (query : String) : List PolicyRecord :=
  (store.filter (fun kv =>
      strIn kv.1 query || strIn (pyLower kv.2.customer_name) (pyLower query))).map
    Prod.snd

/-- `retrieve_policy_info` (src/app1.py lines 35-48) reading the global
`MOCK_POLICY_DATA`. -/
def retrieve_policy_info (query : String) : List PolicyRecord :=
  retrieve_policy_info_on MOCK_POLICY_DATA query

/-- The reverse identifier lookup on src/app1.py line 65:
`[k for k, v in MOCK_POLICY_DATA.items() if v == policy][0]`.  The `[0]`
indexing of the comprehension is modelled by `head?`; `none` models the
`IndexError` raised when no store record equals `policy`. -/
def reverse_lookup (store : List (String × PolicyRecord))
    (policy : PolicyRecord) : Option String :=
  ((store.filter (fun kv => decide (kv.2 = policy))).map Prod.fst).head?

/-- The fixed apology returned on an empty context (src/app1.py line 60). -/
def apology_text : String :=
  "I'm sorry, I couldn't find any relevant policy information for that query. Please check the policy number or customer name."

/-- The coverage branch of `generate_response` (src/app1.py lines 68-71). -/
def coverage_reply (policy : PolicyRecord) (policy_id : String) : String :=
  let coverage_list := policy.coverage.map (fun kv =>
    "- " ++ pyTitle (replaceUnderscores kv.1) ++ ": " ++ kv.2)
  let coverage_text := String.intercalate "\n" coverage_list
  "Hello, the policy details for " ++ policy.customer_name ++
    " (Policy ID: " ++ policy_id ++
    ") indicate the following coverage:\n\n" ++ coverage_text

/-- The premium branch of `generate_response` (src/app1.py lines 73-74). -/
def premium_reply (policy : PolicyRecord) (policy_id : String) : String :=
  "The monthly premium for " ++ policy.customer_name ++
    "'s policy (Policy ID: " ++ policy_id ++ ") is " ++ policy.premium ++ "."

/-- The deductible branch of `generate_response` (src/app1.py lines 76-77). -/
def deductible_reply (policy : PolicyRecord) (policy_id : String) : String :=
  "The deductible for " ++ policy.customer_name ++
    "'s policy (Policy ID: " ++ policy_id ++ ") is " ++ policy.deductible ++ "."

/-- The fallback branch of `generate_response` (src/app1.py lines 79-81). -/
def fallback_reply (policy : PolicyRecord) (policy_id : String) : String :=
  "Based on the information for " ++ policy.customer_name ++
    " (Policy ID: " ++ policy_id ++ "), I can confirm that the policy type is '" ++
    policy.policy_type ++ "'. How can I assist further?"

/-- `generate_response` (src/app1.py lines 53-81) with the global store made
an explicit parameter.  On an empty context, the fixed apology.  Otherwise
the first record only; the reverse identifier lookup may fail (`none` models
the Python `IndexError`), and on success the lowercased query is tested for
the keywords in the fixed order coverage, premium, deductible, fallback. -/
def generate_response_on (store : List (String × PolicyRecord))
    (query : String) (context : List PolicyRecord) : Option String :=
  match context with
  | [] => some apology_text
  | policy :: _ =>
    match reverse_lookup store policy with
    | none => none
    | some policy_id =>
      some (if strIn "coverage" (pyLower query) then coverage_reply policy policy_id
        else if strIn "premium" (pyLower query) then premium_reply policy policy_id
        else if strIn "deductible" (pyLower query) then deductible_reply policy policy_id
        else fallback_reply policy policy_id)

/-- `generate_response` (src/app1.py lines 53-81) reading the global
`MOCK_POLICY_DATA`. -/
def generate_response (query : String) (context : List PolicyRecord) :
    Option String :=
  generate_response_on MOCK_POLICY_DATA query context

/-- Modelled from the spec, §4.1: "iterate the store in its fixed insertion
order; include a record if `record.identifier` occurs as a contiguous
substring of `query` (case-sensitive) OR `record.customerName` occurs as a
contiguous substring of `query` when both are lowercased.  Output preserves
store iteration order."  Used to compare the spec's description of the
Retriever with the source's `retrieve_policy_info`. -/
def retrieve_spec (store : List (String × PolicyRecord)) (query : String) :
    List PolicyRecord :=
  (store.filter (fun kv =>
      strIn kv.1 query || strIn (pyLower kv.2.customer_name) (pyLower query))).map
    Prod.snd

/-- Modelled from the spec, §9 (open question): the retrieval pipeline
carrying `(identifier, record)` pairs through retrieval instead of bare
records. -/
def retrieve_pairs (query : String) : List (String × PolicyRecord) :=
  MOCK_POLICY_DATA.filter (fun kv =>
    strIn kv.1 query || strIn (pyLower kv.2.customer_name) (pyLower query))

/-- Modelled from the spec, §9 (open question): the responder consuming
`(identifier, record)` pairs, using the carried identifier in place of the
reverse lookup; intended to cause no behavioral change. -/
def generate_response_pairs (query : String)
    (context : List (String × PolicyRecord)) : Option String :=
  match context with
  | [] => some apology_text
  | (policy_id, policy) :: _ =>
    some (if strIn "coverage" (pyLower query) then coverage_reply policy policy_id
      else if strIn "premium" (pyLower query) then premium_reply policy policy_id
      else if strIn "deductible" (pyLower query) then deductible_reply policy policy_id
      else fallback_reply policy policy_id)

/-- One transcript turn of the chat session (src/app1.py lines 90-118):
a role (`"user"` or `"assistant"`) and a content string. -/
structure Turn where
  role : String
  content : String
deriving DecidableEq

/-- The per-session state of the UI shell, with the implicit global state
made explicit: the transcript (`st.session_state.messages`) and the policy
store read by the Retriever and the Responder. -/
structure AppState where
  messages : List Turn
  store : List (String × PolicyRecord)
deriving DecidableEq

/-- One user turn of the chat loop (src/app1.py lines 99-118): append the
user message to the transcript, retrieve context for the prompt, generate the
response, append the assistant message.  A `none` response models the Python
exception propagating out of `generate_response`, in which case the
assistant message is never appended. -/
def run_turn (s : AppState) (prompt : String) : AppState × Option String :=
  let msgs1 := s.messages ++ [⟨"user", prompt⟩]
  match generate_response_on s.store prompt
      (retrieve_policy_info_on s.store prompt) with
  | none => ({ s with messages := msgs1 }, none)
  | some response =>
    ({ s with messages := msgs1 ++ [⟨"assistant", response⟩] }, some response)

/-- A policy record that does not occur in the Policy Store: a concrete
input exhibiting the partiality of the responder's reverse lookup. -/
def ghostRecord : PolicyRecord :=
  { customer_name := "Ghost Rider"
    policy_type := "Pet Insurance"
    coverage := []
    premium := "$1/month"
    deductible := "$0"
    exclusions := "None." }

/-! ## Helper lemmas -/

/-- The reverse lookup recovers Jane's identifier. -/
theorem reverse_lookup_jane :
    reverse_lookup MOCK_POLICY_DATA janeRecord = some "policy_1001" := by
  decide

/-- The reverse lookup recovers John's identifier. -/
theorem reverse_lookup_john :
    reverse_lookup MOCK_POLICY_DATA johnRecord = some "policy_1002" := by
  decide

/-- Retrieval over the two-record store, by cases on the two match
conditions. -/
theorem retrieve_cases (q : String) :
    retrieve_policy_info q =
      (if strIn "policy_1001" q || strIn (pyLower janeRecord.customer_name) (pyLower q)
        then [janeRecord] else []) ++
      (if strIn "policy_1002" q || strIn (pyLower johnRecord.customer_name) (pyLower q)
        then [johnRecord] else []) := by
  simp only [retrieve_policy_info, retrieve_policy_info_on, MOCK_POLICY_DATA,
    List.filter_cons, List.filter_nil]
  cases strIn "policy_1001" q || strIn (pyLower janeRecord.customer_name) (pyLower q) <;>
    cases strIn "policy_1002" q || strIn (pyLower johnRecord.customer_name) (pyLower q) <;>
    simp

/-- Pair-carrying retrieval over the two-record store, by cases on the two
match conditions. -/
theorem retrieve_pairs_cases (q : String) :
    retrieve_pairs q =
      (if strIn "policy_1001" q || strIn (pyLower janeRecord.customer_name) (pyLower q)
        then [("policy_1001", janeRecord)] else []) ++
      (if strIn "policy_1002" q || strIn (pyLower johnRecord.customer_name) (pyLower q)
        then [("policy_1002", johnRecord)] else []) := by
  simp only [retrieve_pairs, MOCK_POLICY_DATA, List.filter_cons, List.filter_nil]
  cases strIn "policy_1001" q || strIn (pyLower janeRecord.customer_name) (pyLower q) <;>
    cases strIn "policy_1002" q || strIn (pyLower johnRecord.customer_name) (pyLower q) <;>
    simp

/-! ## Claims -/

/-- C1: for every query string `q`, `retrieve(q, store)` returns exactly the
records of the Policy Store, in the store's insertion order, whose identifier
occurs as a case-sensitive contiguous substring of `q` or whose customer name
occurs as a contiguous substring of `q` after lowercasing both (i.e. it agrees
with the spec's filter `retrieve_spec`); in particular, for every query
containing `"policy_1001"` the first element of the result is the record with
identifier `policy_1001`, the empty query yields the empty sequence, and a
query matching no record yields the empty sequence. -/
theorem c1_retrieve_characterization :
    (∀ q, retrieve_policy_info q = retrieve_spec MOCK_POLICY_DATA q) ∧
    (∀ q, strIn "policy_1001" q = true →
      (retrieve_policy_info q).head? = some janeRecord) ∧
    retrieve_policy_info "" = [] ∧
    (∀ q, (∀ kv ∈ MOCK_POLICY_DATA,
        (strIn kv.1 q || strIn (pyLower kv.2.customer_name) (pyLower q)) = false) →
      retrieve_policy_info q = []) := by
  refine ⟨fun q => rfl, fun q h => ?_, by decide, fun q h => ?_⟩
  · rw [retrieve_cases q]
    simp [h]
  · have h1 := h ("policy_1001", janeRecord) (by simp [MOCK_POLICY_DATA])
    have h2 := h ("policy_1002", johnRecord) (by simp [MOCK_POLICY_DATA])
    rw [retrieve_cases q]
    simp only at h1 h2
    simp [h1, h2]

/-- Witness for C1 at concrete queries. -/
theorem c1_witness :
    (retrieve_policy_info "see policy_1001 now").head? = some janeRecord ∧
    retrieve_policy_info "zzz" = [] :=
  ⟨c1_retrieve_characterization.2.1 _ (by decide),
   c1_retrieve_characterization.2.2.2 _ (by decide)⟩

/-- C2: for every input string `q`, the per-turn pipeline
`generate_response q (retrieve_policy_info q)` yields a string (it is never
`none`, i.e. the Python code raises no exception): the reverse identifier
lookup inside the responder never fails when the context was produced by the
retriever on the fixed two-record store. -/
theorem c2_pipeline_total :
    ∀ q : String, (generate_response q (retrieve_policy_info q)).isSome = true := by
  intro q
  rw [retrieve_cases q]
  cases strIn "policy_1001" q || strIn (pyLower janeRecord.customer_name) (pyLower q) <;>
    cases strIn "policy_1002" q || strIn (pyLower johnRecord.customer_name) (pyLower q) <;>
    simp [generate_response, generate_response_on, reverse_lookup_jane,
      reverse_lookup_john]

/-- C4: for every query string `q`, `respond(q, [])` returns exactly the one
fixed apology string asking the caller to check the policy number or customer
name, independent of `q`; it is an ordinary string result, not a structured
error. -/
theorem c4_empty_context_apology :
    ∀ q : String,
      generate_response q [] = some apology_text ∧
      apology_text = "I'm sorry, I couldn't find any relevant policy information for that query. Please check the policy number or customer name." :=
  fun _ => ⟨rfl, rfl⟩

/-- C5: for every query `q` and every non-empty context whose elements are
records of the Policy Store, the response depends only on `q` and the first
matched record: `respond(q, matches) = respond(q, [matches[0]])`. -/
theorem c5_only_first_match_used :
    ∀ (q : String) (p : PolicyRecord) (rest : List PolicyRecord),
      p ∈ MOCK_POLICY_DATA.map Prod.snd →
      (∀ r ∈ rest, r ∈ MOCK_POLICY_DATA.map Prod.snd) →
      generate_response q (p :: rest) = generate_response q [p] :=
  fun _ _ _ _ _ => rfl

/-- Witness for C5 at a concrete query and two-record context. -/
theorem c5_witness :
    generate_response "premium?" (janeRecord :: [johnRecord]) =
      generate_response "premium?" [janeRecord] :=
  c5_only_first_match_used "premium?" janeRecord [johnRecord] (by decide) (by decide)

/-- C3: for every query `q` and every non-empty context headed by a Policy
Store record, the responder tests the lowercased `q` for keywords in the
fixed priority order coverage, premium, deductible, fallback: whenever the
lowercased `q` contains `"coverage"` the result is the coverage listing for
the first record (even if `q` also contains `"premium"` or `"deductible"`),
and it is never the premium branch's output. -/
theorem c3_keyword_priority :
    ∀ (q : String) (policy : PolicyRecord) (rest : List PolicyRecord),
      policy ∈ MOCK_POLICY_DATA.map Prod.snd →
      strIn "coverage" (pyLower q) = true →
      ∃ policy_id,
        reverse_lookup MOCK_POLICY_DATA policy = some policy_id ∧
        generate_response q (policy :: rest) =
          some (coverage_reply policy policy_id) ∧
        generate_response q (policy :: rest) ≠
          some (premium_reply policy policy_id) := by
  intro q policy rest hmem hcov
  have hne1 : coverage_reply janeRecord "policy_1001" ≠
      premium_reply janeRecord "policy_1001" := by decide
  have hne2 : coverage_reply johnRecord "policy_1002" ≠
      premium_reply johnRecord "policy_1002" := by decide
  simp only [MOCK_POLICY_DATA, List.map, List.mem_cons, List.not_mem_nil,
    or_false] at hmem
  rcases hmem with h | h <;> subst h
  · refine ⟨"policy_1001", reverse_lookup_jane, ?_, ?_⟩ <;>
      simp [generate_response, generate_response_on, reverse_lookup_jane,
        hcov, hne1]
  · refine ⟨"policy_1002", reverse_lookup_john, ?_, ?_⟩ <;>
      simp [generate_response, generate_response_on, reverse_lookup_john,
        hcov, hne2]

/-- Witness for C3 at the spec's example query, which contains both
`"premium"` and `"coverage"`. -/
theorem c3_witness :
    ∃ policy_id,
      reverse_lookup MOCK_POLICY_DATA janeRecord = some policy_id ∧
      generate_response "what premium covers coverage" (janeRecord :: []) =
        some (coverage_reply janeRecord policy_id) ∧
      generate_response "what premium covers coverage" (janeRecord :: []) ≠
        some (premium_reply janeRecord policy_id) :=
  c3_keyword_priority "what premium covers coverage" janeRecord []
    (by decide) (by decide)

/-- C6: for every query `q`, every pair produced by the pair-carrying
retrieval satisfies that the responder's reverse lookup of its record
recovers exactly its own identifier, and the actual pipeline's output equals
the pair-carrying pipeline's output: carrying `(identifier, record)` pairs
instead of the reverse lookup causes no behavioral change. -/
theorem c6_reverse_lookup_faithful :
    ∀ q : String,
      (∀ kv ∈ retrieve_pairs q,
        reverse_lookup MOCK_POLICY_DATA kv.2 = some kv.1) ∧
      generate_response q (retrieve_policy_info q) =
        generate_response_pairs q (retrieve_pairs q) := by
  intro q
  constructor
  · intro kv hkv
    have hmem : kv ∈ MOCK_POLICY_DATA := List.mem_of_mem_filter hkv
    simp only [MOCK_POLICY_DATA, List.mem_cons, List.not_mem_nil,
      or_false] at hmem
    rcases hmem with h | h <;> subst h
    · exact reverse_lookup_jane
    · exact reverse_lookup_john
  · rw [retrieve_cases q, retrieve_pairs_cases q]
    cases strIn "policy_1001" q || strIn (pyLower janeRecord.customer_name) (pyLower q) <;>
      cases strIn "policy_1002" q || strIn (pyLower johnRecord.customer_name) (pyLower q) <;>
      simp [generate_response, generate_response_on, generate_response_pairs,
        reverse_lookup_jane, reverse_lookup_john]

/-- Witness for C6 at a concrete query matching John's record. -/
theorem c6_witness :
    reverse_lookup MOCK_POLICY_DATA johnRecord = some "policy_1002" ∧
    generate_response "policy_1002 premium" (retrieve_policy_info "policy_1002 premium") =
      generate_response_pairs "policy_1002 premium" (retrieve_pairs "policy_1002 premium") :=
  ⟨(c6_reverse_lookup_faithful "policy_1002 premium").1
      ("policy_1002", johnRecord) (by decide),
   (c6_reverse_lookup_faithful "policy_1002 premium").2⟩

/-- C7: one user turn never mutates the Policy Store — the store component of
the session state is unchanged by `run_turn` — and retrieval is a pure
function of the query and store: retrieving after the turn yields the same
sequence as before, and calling `retrieve` twice with the same query and
store yields identical sequences. -/
theorem c7_store_immutable :
    ∀ (s : AppState) (q : String),
      (run_turn s q).1.store = s.store ∧
      retrieve_policy_info_on (run_turn s q).1.store q =
        retrieve_policy_info_on s.store q ∧
      retrieve_policy_info_on s.store q = retrieve_policy_info_on s.store q := by
  intro s q
  have hstore : (run_turn s q).1.store = s.store := by
    unfold run_turn
    cases generate_response_on s.store q (retrieve_policy_info_on s.store q) <;>
      simp
  exact ⟨hstore, by rw [hstore], rfl⟩

set_option maxRecDepth 8192 in
/-- C8: on the query `"What is the coverage for Jane Doe?"` with Jane's
record selected, the responder returns the coverage listing naming the
customer `"Jane Doe"` and identifier `"policy_1001"`, with one line
`- <Category Title Case>: <value>` per coverage entry in the mapping's
defined order: Collision, Comprehensive, Roadside Assistance with their
configured values. -/
theorem c8_coverage_listing :
    ∃ out,
      generate_response "What is the coverage for Jane Doe?" [janeRecord] =
        some out ∧
      out = "Hello, the policy details for Jane Doe (Policy ID: policy_1001) indicate the following coverage:\n\n- Collision: Up to $50,000\n- Comprehensive: Up to $25,000\n- Roadside Assistance: Included" ∧
      strIn "- Collision: Up to $50,000" out = true ∧
      strIn "- Comprehensive: Up to $25,000" out = true ∧
      strIn "- Roadside Assistance: Included" out = true ∧
      strIn "Jane Doe" out = true ∧
      strIn "policy_1001" out = true :=
  ⟨"Hello, the policy details for Jane Doe (Policy ID: policy_1001) indicate the following coverage:\n\n- Collision: Up to $50,000\n- Comprehensive: Up to $25,000\n- Roadside Assistance: Included",
   by decide, rfl, by decide, by decide, by decide, by decide, by decide⟩

set_option maxRecDepth 8192 in
/-- C9: on the query `"premium for policy_1002"` with John's record selected,
the responder returns the premium branch's single sentence, containing the
substrings `"$85/month"`, `"policy_1002"` and the customer name
`"John Smith"`. -/
theorem c9_premium_sentence :
    ∃ out,
      generate_response "premium for policy_1002" [johnRecord] = some out ∧
      out = premium_reply johnRecord "policy_1002" ∧
      out = "The monthly premium for John Smith's policy (Policy ID: policy_1002) is $85/month." ∧
      strIn "$85/month" out = true ∧
      strIn "policy_1002" out = true ∧
      strIn "John Smith" out = true :=
  ⟨"The monthly premium for John Smith's policy (Policy ID: policy_1002) is $85/month.",
   by decide, by decide, rfl, by decide, by decide, by decide⟩

/-- C10: the responder on its own is not total over arbitrary record
sequences: on a non-empty context whose first record is not in the Policy
Store, the reverse lookup finds no key and the indexing fails (the Python
code raises, modelled by `none`); but whenever the first record is a store
record, the responder always yields a string. -/
theorem c10_respond_partial :
    generate_response "what is the coverage" [ghostRecord] = none ∧
    ghostRecord ∉ MOCK_POLICY_DATA.map Prod.snd ∧
    (∀ (q : String) (p : PolicyRecord) (rest : List PolicyRecord),
      p ∈ MOCK_POLICY_DATA.map Prod.snd →
      (generate_response q (p :: rest)).isSome = true) := by
  refine ⟨by decide, by decide, ?_⟩
  intro q p rest hp
  simp only [MOCK_POLICY_DATA, List.map, List.mem_cons, List.not_mem_nil,
    or_false] at hp
  rcases hp with h | h <;> subst h <;>
    simp [generate_response, generate_response_on, reverse_lookup_jane,
      reverse_lookup_john]

/-- Witness for C10's totality part at a concrete query and store record. -/
theorem c10_witness :
    (generate_response "hello" (janeRecord :: [])).isSome = true :=
  c10_respond_partial.2.2 "hello" janeRecord [] (by decide)
